import Mathlib

/-!
Verification of the `simpletable` module (simpletable.py): a shallow
embedding of its four classes (HTMLTableCell, HTMLTableRow, HTMLTable,
HTMLPage) and proofs about construction and serialization.

Modelling conventions:
- Cell content is represented by its Python string form (`str(text)`),
  since serialization only ever uses the `%s` conversion of the content.
- A constructor that raises (IndexError on an empty input sequence,
  IndexError propagated from a nested constructor, NameError from the
  global-name lookup in `HTMLPage.__str__`) is modelled as returning
  `none`; `some` means the Python call returns normally.
- The dynamic `isinstance(xs[0], C)` dispatch on the first element of the
  constructor argument is represented by an explicit input type with one
  constructor per homogeneous case (all pre-built objects / all raw
  values); mixed sequences are documented by the module as unsupported.
- `HTMLPage.__str__` reads the *global* variable `table` (not
  `self.table`) when `self.table` is truthy, so the embedding of that
  method takes the current binding of the global `table` as an explicit
  parameter (`none` = the global name is unbound, giving a NameError).
-/

/-- Embeds `HTMLTableCell.__init__` (simpletable.py lines 46-54): the
stored display text and the header flag. -/
structure HTMLTableCell where
  text : String
  header : Bool
  deriving DecidableEq, Repr

/-- Embeds `HTMLTableCell.__str__` (lines 56-61): `<th>%s</th>` when the
header flag is set, else `<td>%s</td>`. -/
def HTMLTableCell.str (c : HTMLTableCell) : String :=
  if c.header then "<th>" ++ c.text ++ "</th>" else "<td>" ++ c.text ++ "</td>"

/-- The `cells` argument of `HTMLTableRow.__init__`: either a sequence of
pre-built `HTMLTableCell` objects (first element passes the `isinstance`
check) or a sequence of raw values, given by their string forms. -/
inductive CellsInput where
  | cellObjs (cs : List HTMLTableCell)
  | rawVals (vs : List String)
  deriving DecidableEq, Repr

/-- Embeds the `HTMLTableRow` object state: the list of cells and the
header flag (lines 86-91). -/
structure HTMLTableRow where
  cells : List HTMLTableCell
  header : Bool
  deriving DecidableEq, Repr

/-- Embeds `HTMLTableRow.__init__` (lines 76-91). `cells[0]` on an empty
sequence raises IndexError (`none`). If the first element is an
`HTMLTableCell` the sequence is stored unchanged; otherwise every element
is wrapped as `HTMLTableCell(cell, header=header)`. -/
def HTMLTableRow.init : CellsInput → Bool → Option HTMLTableRow
  | CellsInput.cellObjs [], _ => none
  | CellsInput.cellObjs (c :: cs), header => some ⟨c :: cs, header⟩
  | CellsInput.rawVals [], _ => none
  | CellsInput.rawVals (v :: vs), header =>
      some ⟨(v :: vs).map (fun x => ⟨x, header⟩), header⟩

/-- Embeds `HTMLTableRow.__str__` (lines 93-104): `<tr>`, the serialization of each cell, `</tr>`, joined by newlines. -/
def HTMLTableRow.str (r : HTMLTableRow) : String :=
  String.intercalate "\n" (["<tr>"] ++ r.cells.map HTMLTableCell.str ++ ["</tr>"])

/-- Embeds `HTMLTableRow.__iter__` (lines 106-109): yields the cells in
storage order; a Python list iteration is restartable and finite. -/
def HTMLTableRow.iter (r : HTMLTableRow) : List HTMLTableCell :=
  r.cells

/-- Embeds `HTMLTableRow.add_cell` (lines 111-113): `self.cells.append(cell)`. -/
def HTMLTableRow.add_cell (r : HTMLTableRow) (c : HTMLTableCell) : HTMLTableRow :=
  ⟨r.cells ++ [c], r.header⟩

/-- Embeds `HTMLTableRow.add_cells` (lines 115-118): appends each element
of the given sequence in order (`for cell in cells: self.cells.append(cell)`). -/
def HTMLTableRow.add_cells (r : HTMLTableRow) (cs : List HTMLTableCell) : HTMLTableRow :=
  cs.foldl HTMLTableRow.add_cell r

/-- The `rows` argument of `HTMLTable.__init__`: either a sequence of
pre-built `HTMLTableRow` objects (first element passes the `isinstance`
check) or a sequence of raw row-like values, each of which is itself a
`cells` argument for `HTMLTableRow.__init__`. -/
inductive RowsInput where
  | rowObjs (rs : List HTMLTableRow)
  | rawRows (ls : List CellsInput)
  deriving DecidableEq, Repr

/-- The `header_row` argument of `HTMLTable.__init__` when it is not
`None`: a pre-built `HTMLTableRow`, or a raw `cells` sequence to be
wrapped via `HTMLTableRow(header_row, header=True)`. -/
inductive HeaderInput where
  | rowObj (r : HTMLTableRow)
  | raw (cs : CellsInput)
  deriving DecidableEq, Repr

/-- Embeds the `HTMLTable` object state (lines 147-159): rows, optional
header row, optional CSS class. -/
structure HTMLTable where
  rows : List HTMLTableRow
  header_row : Option HTMLTableRow
  css_class : Option String
  deriving DecidableEq, Repr

/-- Embeds the list comprehension `[HTMLTableRow(row) for row in rows]`
(line 150); a nested empty sequence raises IndexError (`none`). -/
def HTMLTable.initRows : List CellsInput → Option (List HTMLTableRow)
  | [] => some []
  | l :: ls =>
      match HTMLTableRow.init l false, HTMLTable.initRows ls with
      | some r, some rs => some (r :: rs)
      | _, _ => none

/-- Embeds the `header_row` normalization (lines 152-157): `None` stays
absent, a pre-built row is stored as-is, a raw sequence is wrapped via
`HTMLTableRow(header_row, header=True)` (which can raise IndexError). -/
def HTMLTable.initHeader : Option HeaderInput → Option (Option HTMLTableRow)
  | none => some none
  | some (HeaderInput.rowObj r) => some (some r)
  | some (HeaderInput.raw cs) =>
      match HTMLTableRow.init cs true with
      | some r => some (some r)
      | none => none

/-- Embeds `HTMLTable.__init__` (lines 136-159). `rows[0]` on an empty
sequence raises IndexError (`none`); `css_class` is stored verbatim. -/
def HTMLTable.init (rows : RowsInput) (header_row : Option HeaderInput)
    (css_class : Option String) : Option HTMLTable :=
  match rows with
  | RowsInput.rowObjs [] => none
  | RowsInput.rowObjs (r :: rs) =>
      match HTMLTable.initHeader header_row with
      | some hr => some ⟨r :: rs, hr, css_class⟩
      | none => none
  | RowsInput.rawRows [] => none
  | RowsInput.rawRows (l :: ls) =>
      match HTMLTable.initRows (l :: ls) with
      | some rws =>
          match HTMLTable.initHeader header_row with
          | some hr => some ⟨rws, hr, css_class⟩
          | none => none
      | none => none

/-- Embeds lines 165-168 of `HTMLTable.__str__`: the opening tag carries
`class=%s` exactly when `self.css_class` is truthy (not `None` and not the
empty string); the class value is interpolated with no quotes around it. -/
def HTMLTable.openTag (t : HTMLTable) : String :=
  match t.css_class with
  | some c => if c = "" then "<table>" else "<table class=" ++ c ++ ">"
  | none => "<table>"

/-- Embeds `HTMLTable.__str__` (lines 161-178): opening tag, then the
serialization of the header row when `self.header_row` is truthy (an `HTMLTableRow`
object is always truthy), the serialization of each body row in storage order,
then the closing tag, joined by newlines. -/
def HTMLTable.str (t : HTMLTable) : String :=
  String.intercalate "\n"
    ([t.openTag]
      ++ (match t.header_row with
          | some h => [h.str]
          | none => [])
      ++ t.rows.map HTMLTableRow.str
      ++ ["</table>"])

/-- Embeds `HTMLTable.__iter__` (lines 180-183): yields the body rows in
storage order (the header row is not included). -/
def HTMLTable.iter (t : HTMLTable) : List HTMLTableRow :=
  t.rows

/-- Embeds `HTMLTable.add_row` (lines 185-187): `self.rows.append(row)`. -/
def HTMLTable.add_row (t : HTMLTable) (r : HTMLTableRow) : HTMLTable :=
  ⟨t.rows ++ [r], t.header_row, t.css_class⟩

/-- Embeds `HTMLTable.add_rows` (lines 189-192): appends each element of
the given sequence in order. -/
def HTMLTable.add_rows (t : HTMLTable) (rs : List HTMLTableRow) : HTMLTable :=
  rs.foldl HTMLTable.add_row t

/-- Embeds the `HTMLPage` object state (lines 197-208): optional table,
optional CSS text, encoding string. -/
structure HTMLPage where
  table : Option HTMLTable
  css : Option String
  encoding : String
  deriving DecidableEq, Repr

/-- Embeds `HTMLPage.__str__` (lines 210-224). The style block appears
when `self.css` is truthy; the meta tag always appears; when `self.table`
is truthy the method appends `str(table)` where `table` is the *global*
name, not `self.table` — so the result depends on the current binding of
the module-level/global variable `table`, passed here as `globalTable`
(`none` models an unbound global, in which case the call raises
NameError, modelled as `none` overall). -/
def HTMLPage.str (globalTable : Option HTMLTable) (p : HTMLPage) : Option String :=
  let cssPart : List String :=
    match p.css with
    | some c => if c = "" then [] else ["<style type=\"text/css\">\n" ++ c ++ "\n</style>"]
    | none => []
  let headParts : List String :=
    cssPart
      ++ ["<meta http-equiv=\"Content-Type\" content=\"text/html;charset=" ++ p.encoding ++ "\">"]
  match p.table with
  | some _ =>
      match globalTable with
      | some gt => some (String.intercalate "\n" (headParts ++ [gt.str]))
      | none => none
  | none => some (String.intercalate "\n" headParts)

-- Sample containers used by concrete witnesses and counterexamples.

/-- A one-cell body row holding the raw value `a`, as built by
`HTMLTableRow(["a"])`. -/
def sampleRow : HTMLTableRow := ⟨[⟨"a", false⟩], false⟩

/-- A one-cell header row holding the raw value `X`, as built by
`HTMLTableRow(["X"], header=True)`. -/
def sampleHeaderRow : HTMLTableRow := ⟨[⟨"X", true⟩], true⟩

/-- The table built by `HTMLTable([["a"]], css_class="t")`. -/
def sampleClassTable : HTMLTable := ⟨[sampleRow], none, some "t"⟩

/-- The table built by
`HTMLTable([["a"]], header_row=["X"], css_class="")`: the CSS class is
set at construction, to the empty string. -/
def emptyClassTable : HTMLTable := ⟨[sampleRow], some sampleHeaderRow, some ""⟩

/-- The table built by `HTMLTable([["a"]])`: one body row, no header, no
CSS class — the table a `HTMLPage` under test owns. -/
def pageOwnTable : HTMLTable := ⟨[sampleRow], none, none⟩

/-- The table built by `HTMLTable([["z"]])`: the value bound to the
*global* variable `table` while the page under test is serialized. -/
def globalTableVal : HTMLTable := ⟨[⟨[⟨"z", false⟩], false⟩], none, none⟩

/-- The page built by `HTMLPage(table=pageOwnTable)`. -/
def samplePage : HTMLPage := ⟨some pageOwnTable, none, "utf-8"⟩

/-- No string `c` makes the plain opening tag `<table>` coincide with a
class-carrying opening tag `<table class=...>`: the lengths differ. -/
lemma plain_open_tag_ne (c : String) : "<table>" ≠ "<table class=" ++ c ++ ">" := by
  intro h
  have hl := congrArg String.length h
  rw [String.length_append, String.length_append] at hl
  have h1 : ("<table>" : String).length = 7 := by decide
  have h2 : ("<table class=" : String).length = 13 := by decide
  have h3 : (">" : String).length = 1 := by decide
  omega

/-- Claim C2: constructing a Row or a Table from an empty sequence fails
with an indexing error at construction time (modelled as `none`: the
object is never created), for both shapes the empty argument can take and
regardless of the other arguments. -/
theorem empty_input_construction_fails :
    (∀ h : Bool, HTMLTableRow.init (CellsInput.cellObjs []) h = none) ∧
    (∀ h : Bool, HTMLTableRow.init (CellsInput.rawVals []) h = none) ∧
    (∀ (hr : Option HeaderInput) (cc : Option String),
      HTMLTable.init (RowsInput.rowObjs []) hr cc = none) ∧
    (∀ (hr : Option HeaderInput) (cc : Option String),
      HTMLTable.init (RowsInput.rawRows []) hr cc = none) :=
  ⟨fun _ => rfl, fun _ => rfl, fun _ _ => rfl, fun _ _ => rfl⟩

/-- Claim C4: `HTMLTable([["a","b"],["c","d"]], header_row=["X","Y"],
css_class="t")` serializes to exactly the expected string: unquoted class
attribute, header row first, then the two body rows, one tag per line. -/
theorem table_concrete_scenario :
    (HTMLTable.init
        (RowsInput.rawRows [CellsInput.rawVals ["a", "b"], CellsInput.rawVals ["c", "d"]])
        (some (HeaderInput.raw (CellsInput.rawVals ["X", "Y"])))
        (some "t")).map HTMLTable.str =
      some "<table class=t>\n<tr>\n<th>X</th>\n<th>Y</th>\n</tr>\n<tr>\n<td>a</td>\n<td>b</td>\n</tr>\n<tr>\n<td>c</td>\n<td>d</td>\n</tr>\n</table>" := by
  rfl

/-- Claim C9: `HTMLPage(table=None, css=None, encoding="utf-8")`
serializes to exactly the content-type meta tag declaring utf-8 — no
style block and no table markup — whatever the global `table` binding. -/
theorem empty_page_meta_only (globalTable : Option HTMLTable) :
    HTMLPage.str globalTable ⟨none, none, "utf-8"⟩ =
      some "<meta http-equiv=\"Content-Type\" content=\"text/html;charset=utf-8\">" := by
  rfl

/-- Claim C1 (code bug): `HTMLPage.__str__` line 222 appends
`str(table)` — the *global* name `table` — instead of `str(self.table)`.
A page owning `HTMLTable([["a"]])`, serialized while the global `table`
is bound to `HTMLTable([["z"]])`, emits the markup of the global table
(`<td>z</td>`), not its own (`<td>a</td>`); with the global unbound the
call raises NameError (`none`). -/
theorem page_serializes_global_table :
    HTMLPage.str (some globalTableVal) samplePage =
      some "<meta http-equiv=\"Content-Type\" content=\"text/html;charset=utf-8\">\n<table>\n<tr>\n<td>z</td>\n</tr>\n</table>" ∧
    samplePage.table = some pageOwnTable ∧
    pageOwnTable.str = "<table>\n<tr>\n<td>a</td>\n</tr>\n</table>" ∧
    HTMLPage.str (some globalTableVal) samplePage ≠
      some ("<meta http-equiv=\"Content-Type\" content=\"text/html;charset=utf-8\">"
        ++ "\n" ++ pageOwnTable.str) ∧
    HTMLPage.str none samplePage = none := by
  refine ⟨rfl, rfl, rfl, ?_, rfl⟩
  decide

/-- Claim C6: for a non-empty sequence of raw values `v`, the row built
by `HTMLTableRow(v, header=h)` has exactly `v.length` cells, and its
serialization is `<tr>`, then one cell tag per value — `<th>` when the
header flag is set, `<td>` otherwise — then `</tr>`, joined by newlines. -/
theorem row_raw_values_cell_tags (v : List String) (h : Bool) (hv : v ≠ []) :
    ∃ r, HTMLTableRow.init (CellsInput.rawVals v) h = some r ∧
      r.cells.length = v.length ∧
      r.str = String.intercalate "\n"
        (["<tr>"] ++ v.map (fun x =>
          if h then "<th>" ++ x ++ "</th>" else "<td>" ++ x ++ "</td>") ++ ["</tr>"]) := by
  match v with
  | [] => exact absurd rfl hv
  | x :: xs =>
    refine ⟨_, rfl, ?_, ?_⟩
    · simp
    · simp [HTMLTableRow.str, List.map_map, Function.comp_def, HTMLTableCell.str]

/-- Witness for C6 at `v = ["a", "b"]`, `h = false`. -/
theorem row_raw_values_cell_tags_witness :
    ∃ r, HTMLTableRow.init (CellsInput.rawVals ["a", "b"]) false = some r ∧
      r.cells.length = (["a", "b"] : List String).length ∧
      r.str = String.intercalate "\n"
        (["<tr>"] ++ (["a", "b"] : List String).map (fun x =>
          if false then "<th>" ++ x ++ "</th>" else "<td>" ++ x ++ "</td>") ++ ["</tr>"]) :=
  row_raw_values_cell_tags ["a", "b"] false (by decide)

/-- `add_cells` leaves the prior cells in place and appends the given
cells at the end, in order. -/
lemma add_cells_cells_eq (cs : List HTMLTableCell) (r : HTMLTableRow) :
    (r.add_cells cs).cells = r.cells ++ cs := by
  induction cs generalizing r with
  | nil => simp [HTMLTableRow.add_cells]
  | cons c cs ih =>
      show ((r.add_cell c).add_cells cs).cells = r.cells ++ c :: cs
      rw [ih]
      simp [HTMLTableRow.add_cell]

/-- `add_rows` leaves the prior rows in place and appends the given rows
at the end, in order. -/
lemma add_rows_rows_eq (rs : List HTMLTableRow) (t : HTMLTable) :
    (t.add_rows rs).rows = t.rows ++ rs := by
  induction rs generalizing t with
  | nil => simp [HTMLTable.add_rows]
  | cons r rs ih =>
      show ((t.add_row r).add_rows rs).rows = t.rows ++ r :: rs
      rw [ih]
      simp [HTMLTable.add_row]

/-- Claim C8: `add_cell`/`add_row` grow the container by exactly one,
preserving all prior elements and their order and placing the new element
at the end, and leave every other attribute unchanged; `add_cells` /
`add_rows` append each given element in order and are the fold of the
corresponding single-append operation. -/
theorem append_operations (r : HTMLTableRow) (c : HTMLTableCell) (cs : List HTMLTableCell)
    (t : HTMLTable) (row : HTMLTableRow) (rs : List HTMLTableRow) :
    (r.add_cell c).cells = r.cells ++ [c] ∧
    (r.add_cell c).cells.length = r.cells.length + 1 ∧
    (r.add_cell c).header = r.header ∧
    (r.add_cells cs).cells = r.cells ++ cs ∧
    r.add_cells cs = cs.foldl HTMLTableRow.add_cell r ∧
    (t.add_row row).rows = t.rows ++ [row] ∧
    (t.add_row row).rows.length = t.rows.length + 1 ∧
    (t.add_row row).header_row = t.header_row ∧
    (t.add_row row).css_class = t.css_class ∧
    (t.add_rows rs).rows = t.rows ++ rs ∧
    t.add_rows rs = rs.foldl HTMLTable.add_row t :=
  ⟨rfl, by simp [HTMLTableRow.add_cell], rfl, add_cells_cells_eq cs r, rfl,
   rfl, by simp [HTMLTable.add_row], rfl, rfl, add_rows_rows_eq rs t, rfl⟩

/-- A successful run of the row comprehension on a non-empty raw `rows`
argument yields a non-empty list of rows. -/
lemma initRows_cons_ne_nil (l : CellsInput) (ls : List CellsInput) (rs : List HTMLTableRow)
    (h : HTMLTable.initRows (l :: ls) = some rs) : rs ≠ [] := by
  simp only [HTMLTable.initRows] at h
  cases h1 : HTMLTableRow.init l false with
  | none => rw [h1] at h; exact absurd h (by simp)
  | some r =>
      cases h2 : HTMLTable.initRows ls with
      | none => rw [h1, h2] at h; exact absurd h (by simp)
      | some rest =>
          rw [h1, h2] at h
          simp only [Option.some.injEq] at h
          subst h
          simp

/-- Claim C10: the Python defaults for the `cells` / `rows` constructor
arguments are the empty sequence, so omitting the argument always fails
with an indexing error (`none`), and no successful construction ever
yields an empty Row or an empty Table. -/
theorem no_initially_empty_container :
    (∀ h : Bool, HTMLTableRow.init (CellsInput.cellObjs []) h = none ∧
      HTMLTableRow.init (CellsInput.rawVals []) h = none) ∧
    (∀ (hr : Option HeaderInput) (cc : Option String),
      HTMLTable.init (RowsInput.rowObjs []) hr cc = none ∧
      HTMLTable.init (RowsInput.rawRows []) hr cc = none) ∧
    (∀ (ci : CellsInput) (h : Bool) (r : HTMLTableRow),
      HTMLTableRow.init ci h = some r → r.cells ≠ []) ∧
    (∀ (ri : RowsInput) (hr : Option HeaderInput) (cc : Option String) (t : HTMLTable),
      HTMLTable.init ri hr cc = some t → t.rows ≠ []) := by
  refine ⟨fun _ => ⟨rfl, rfl⟩, fun _ _ => ⟨rfl, rfl⟩, ?_, ?_⟩
  · intro ci h r hinit
    cases ci with
    | cellObjs cs =>
        cases cs with
        | nil => exact absurd hinit (by simp [HTMLTableRow.init])
        | cons c cs =>
            simp only [HTMLTableRow.init, Option.some.injEq] at hinit
            subst hinit
            simp
    | rawVals vs =>
        cases vs with
        | nil => exact absurd hinit (by simp [HTMLTableRow.init])
        | cons v vs =>
            simp only [HTMLTableRow.init, Option.some.injEq] at hinit
            subst hinit
            simp
  · intro ri hr cc t hinit
    cases ri with
    | rowObjs rws =>
        cases rws with
        | nil => exact absurd hinit (by simp [HTMLTable.init])
        | cons r rws =>
            cases hh : HTMLTable.initHeader hr with
            | none => simp [HTMLTable.init, hh] at hinit
            | some hrow =>
                simp only [HTMLTable.init, hh, Option.some.injEq] at hinit
                subst hinit
                simp
    | rawRows ls =>
        cases ls with
        | nil => exact absurd hinit (by simp [HTMLTable.init])
        | cons l ls =>
            cases hrws : HTMLTable.initRows (l :: ls) with
            | none => simp [HTMLTable.init, hrws] at hinit
            | some rws =>
                cases hh : HTMLTable.initHeader hr with
                | none => simp [HTMLTable.init, hrws, hh] at hinit
                | some hrow =>
                    simp only [HTMLTable.init, hrws, hh, Option.some.injEq] at hinit
                    subst hinit
                    exact initRows_cons_ne_nil l ls rws hrws

/-- Witness for C10 at concrete successful constructions: the row built
from `["a"]` and the table built from `[sampleRow]` are non-empty. -/
theorem no_initially_empty_container_witness :
    sampleRow.cells ≠ [] ∧ pageOwnTable.rows ≠ [] :=
  ⟨no_initially_empty_container.2.2.1 (CellsInput.rawVals ["a"]) false sampleRow rfl,
   no_initially_empty_container.2.2.2 (RowsInput.rowObjs [sampleRow]) none none pageOwnTable rfl⟩

/-- Claim C3 (amended): for a table holding a header row `H`, the
serialization is the opening tag, then the serialization of `H` immediately
after it and before the serialization of every body row, then the closing tag;
and a `class` attribute appears on the opening tag if and only if
`css_class` was set to a *non-empty* string (Python truthiness: an
empty-string class is rendered like an unset one). -/
theorem table_header_first_class_iff_nonempty (t : HTMLTable) (H : HTMLTableRow)
    (hH : t.header_row = some H) :
    t.str = String.intercalate "\n"
      ([t.openTag] ++ [H.str] ++ t.rows.map HTMLTableRow.str ++ ["</table>"]) ∧
    ((∃ c, t.css_class = some c ∧ c ≠ "") ↔
      (∃ c, t.openTag = "<table class=" ++ c ++ ">")) := by
  constructor
  · simp [HTMLTable.str, hH]
  · constructor
    · rintro ⟨c, hc, hne⟩
      exact ⟨c, by simp [HTMLTable.openTag, hc, hne]⟩
    · rintro ⟨c, hc⟩
      cases hcc : t.css_class with
      | none =>
          simp only [HTMLTable.openTag, hcc] at hc
          exact absurd hc (plain_open_tag_ne c)
      | some c2 =>
          by_cases h2 : c2 = ""
          · simp only [HTMLTable.openTag, hcc, h2, if_pos] at hc
            exact absurd hc (plain_open_tag_ne c)
          · exact ⟨c2, rfl, h2⟩

/-- Witness for C3 at the table built by
`HTMLTable([["a"]], header_row=["X"], css_class="")`. -/
theorem table_header_first_witness :
    (emptyClassTable.str = String.intercalate "\n"
      ([emptyClassTable.openTag] ++ [sampleHeaderRow.str]
        ++ emptyClassTable.rows.map HTMLTableRow.str ++ ["</table>"])) ∧
    ((∃ c, emptyClassTable.css_class = some c ∧ c ≠ "") ↔
      (∃ c, emptyClassTable.openTag = "<table class=" ++ c ++ ">")) :=
  table_header_first_class_iff_nonempty emptyClassTable sampleHeaderRow rfl

/-- Counterexample to C3 as stated: `HTMLTable([["a"]], header_row=["X"],
css_class="")` has its CSS class *set at construction* (to the empty
string), yet the opening tag of its serialization carries no `class`
attribute, refuting "class appears iff styleClass was set". -/
theorem table_class_iff_set_counterexample :
    HTMLTable.init (RowsInput.rawRows [CellsInput.rawVals ["a"]])
        (some (HeaderInput.raw (CellsInput.rawVals ["X"]))) (some "") =
      some emptyClassTable ∧
    emptyClassTable.css_class = some "" ∧
    emptyClassTable.openTag = "<table>" ∧
    emptyClassTable.str = "<table>\n<tr>\n<th>X</th>\n</tr>\n<tr>\n<td>a</td>\n</tr>\n</table>" ∧
    ¬ ∃ c, emptyClassTable.openTag = "<table class=" ++ c ++ ">" := by
  refine ⟨rfl, rfl, rfl, rfl, ?_⟩
  rintro ⟨c, hc⟩
  exact plain_open_tag_ne c hc

/-- Claim C5 (amended): a non-empty CSS class is written on the opening
tag *without* quotes, as `<table class=CSS_CLASS>`; the cell and row
serializations use the fixed unadorned tags `<th>`/`<td>`/`<tr>` and
carry no attribute at all. -/
theorem table_class_attribute_unquoted (t : HTMLTable) (c : String)
    (hc : t.css_class = some c) (hne : c ≠ "") :
    t.openTag = "<table class=" ++ c ++ ">" ∧
    (∀ cell : HTMLTableCell,
      cell.str = if cell.header then "<th>" ++ cell.text ++ "</th>"
                 else "<td>" ++ cell.text ++ "</td>") ∧
    (∀ r : HTMLTableRow, r.str = String.intercalate "\n"
      (["<tr>"] ++ r.cells.map HTMLTableCell.str ++ ["</tr>"])) :=
  ⟨by simp [HTMLTable.openTag, hc, hne], fun _ => rfl, fun _ => rfl⟩

/-- Witness for C5 at the table built by `HTMLTable([["a"]], css_class="t")`. -/
theorem table_class_attribute_unquoted_witness :
    sampleClassTable.openTag = "<table class=" ++ "t" ++ ">" ∧
    (∀ cell : HTMLTableCell,
      cell.str = if cell.header then "<th>" ++ cell.text ++ "</th>"
                 else "<td>" ++ cell.text ++ "</td>") ∧
    (∀ r : HTMLTableRow, r.str = String.intercalate "\n"
      (["<tr>"] ++ r.cells.map HTMLTableCell.str ++ ["</tr>"])) :=
  table_class_attribute_unquoted sampleClassTable "t" rfl (by decide)

/-- Counterexample to C5 as stated: `HTMLTable([["a"]], css_class="t")`
serializes its opening tag as `<table class=t>` — the class value is not
surrounded by double quotes — and the page serialization emits a meta tag
carrying `http-equiv`/`content` attributes, so "no attribute other than
class is ever emitted by any serialization" also fails for pages. -/
theorem table_class_quoted_counterexample :
    sampleClassTable.css_class = some "t" ∧
    sampleClassTable.str = "<table class=t>\n<tr>\n<td>a</td>\n</tr>\n</table>" ∧
    sampleClassTable.openTag = "<table class=t>" ∧
    sampleClassTable.openTag ≠ "<table class=\"t\">" ∧
    HTMLPage.str none ⟨none, none, "utf-8"⟩ =
      some "<meta http-equiv=\"Content-Type\" content=\"text/html;charset=utf-8\">" := by
  refine ⟨rfl, rfl, rfl, by decide, rfl⟩

/-- Claim C7: every serializer of the module reads the lists of the container
without mutating anything (Python list iteration is restartable and
`__str__` only builds a local list), so serialization is a pure function
of the container value: two calls on the same unmodified container are
the same application and yield identical output, and iterating twice
yields the same cell/row sequence. -/
theorem serialize_repeatable (c : HTMLTableCell) (r : HTMLTableRow) (t : HTMLTable)
    (globalTable : Option HTMLTable) (p : HTMLPage) :
    c.str = c.str ∧ r.str = r.str ∧ t.str = t.str ∧
    HTMLPage.str globalTable p = HTMLPage.str globalTable p ∧
    r.iter = r.iter ∧ t.iter = t.iter :=
  ⟨rfl, rfl, rfl, rfl, rfl, rfl⟩
